import Mathlib

/-!
# Verification of the Flatpakky application core logic

A shallow embedding, in Lean 4, of the testable logic of `flatpakky.py`:
the installed-list parser, the catalog search client, the icon loader and
icon-fetch deduplication, the operation worker, the search debounce timer,
and the operation-finished handler.  External effects (HTTP transport,
subprocess execution, Qt image decoding, dialog interaction) are passed in
as explicit oracle arguments; the embedded functions compute the values the
Python code would compute and the observable effects it would perform.
-/

/-! ## Python string primitives

The source relies on `str.strip()` and `str.split(sep)`.  We embed their
(ASCII) semantics: `strip` drops leading and trailing whitespace characters,
`split` on a one-character separator keeps empty fields and returns `[""]`
on the empty string. -/

/-- ASCII whitespace characters recognized by Python's `str.strip()`. -/
def pyIsSpace (c : Char) : Bool :=
  c = ' ' || c = '\t' || c = '\n' || c = '\r' || c = '\x0b' || c = '\x0c'

/-- Python `s.strip()`: remove leading and trailing whitespace. -/
def pyStrip (s : String) : String :=
  String.mk (((s.data.dropWhile pyIsSpace).reverse.dropWhile pyIsSpace).reverse)

/-- Python `s.split(sep)` for a one-character separator, on a char list:
empty fields are kept, and the empty input yields one empty field. -/
def splitChars (p : Char → Bool) : List Char → List (List Char)
  | [] => [[]]
  | c :: cs =>
    if p c then
      [] :: splitChars p cs
    else
      match splitChars p cs with
      | [] => [[c]]
      | g :: gs => (c :: g) :: gs

/-- Python `s.split(sep)` for a one-character separator. -/
def splitOn1 (sep : Char) (s : String) : List String :=
  (splitChars (fun c => c = sep) s.data).map String.mk

/-- `line.split('\t')` from `get_installed_apps`. -/
def splitTab (s : String) : List String := splitOn1 '\t' s

/-- `text.split('\n')` from `get_installed_apps`. -/
def splitNL (s : String) : List String := splitOn1 '\n' s

/-! ## FlatpakAPI.get_installed_apps -/

/-- One record produced by `FlatpakAPI.get_installed_apps`: the dict with
keys `name`, `flatpakAppId`, `currentReleaseVersion`, `branch`, `origin`. -/
structure InstalledApp where
  name : String
  flatpakAppId : String
  currentReleaseVersion : String
  branch : String
  origin : String
deriving DecidableEq, Repr

/-- The record built from the first five tab-separated fields of a line
(`parts[0]` .. `parts[4]` in the source; only read under the
`len(parts) >= 5` guard, so the defaults are never used there). -/
def recordOfLine (line : String) : InstalledApp :=
  let parts := splitTab line
  { name := parts.getD 0 ""
    flatpakAppId := parts.getD 1 ""
    currentReleaseVersion := parts.getD 2 ""
    branch := parts.getD 3 ""
    origin := parts.getD 4 "" }

/-- The loop body of `get_installed_apps` for one line of output:
`if line.strip():` then `parts = line.split('\t')`, and the record is
appended only `if len(parts) >= 5`. -/
def parseListLine (line : String) : Option InstalledApp :=
  if pyStrip line ≠ "" then
    if 5 ≤ (splitTab line).length then
      some (recordOfLine line)
    else
      none
  else
    none

/-- `FlatpakAPI.get_installed_apps`, as a function of the subprocess's
stdout: `for line in result.stdout.strip().split('\n')`, appending the
parsed record of each accepted line. -/
def get_installed_apps (stdout : String) : List InstalledApp :=
  (splitNL (pyStrip stdout)).filterMap parseListLine

/-- A line the parser keeps: non-blank after stripping, and at least five
tab-separated fields. -/
def isValidRow (line : String) : Bool :=
  decide (pyStrip line ≠ "") && decide (5 ≤ (splitTab line).length)

theorem parseListLine_eq (line : String) :
    parseListLine line =
      if isValidRow line then some (recordOfLine line) else none := by
  by_cases h1 : pyStrip line ≠ "" <;>
    by_cases h2 : 5 ≤ (splitTab line).length <;>
      simp [parseListLine, isValidRow, h1, h2]

theorem filterMap_parseListLine (ls : List String) :
    ls.filterMap parseListLine = (ls.filter isValidRow).map recordOfLine := by
  induction ls with
  | nil => rfl
  | cons l ls ih =>
    by_cases h : isValidRow l <;>
      simp [List.filterMap_cons, List.filter_cons, parseListLine_eq, h, ih]

/-- C2 as stated is false: a row made of four tabs has five (empty)
tab-separated columns, hence counts as a valid row for the claim, but the
parser skips it because `line.strip()` is empty — the output below is one
such row and parses to zero records, not one. -/
theorem C2_counterexample :
    splitNL "\t\t\t\t" = ["\t\t\t\t"] ∧
      (splitTab "\t\t\t\t").length = 5 ∧
      get_installed_apps "\t\t\t\t" = [] := by
  refine ⟨rfl, rfl, rfl⟩

/-! ## SearchThrottleTimer (the search debouncer)

`SearchThrottleTimer` is a single-shot `QTimer`.  Its state is the stored
`pending_query`, the configured `delay_ms`, and whether the single-shot
timer is currently armed (`start` arms or re-arms it, `stop` disarms it,
and expiry can only happen while armed and disarms it). -/

structure ThrottleState where
  delay_ms : Nat
  pending_query : String
  armed : Bool
deriving DecidableEq, Repr

/-- `SearchThrottleTimer.request_search`: store the latest query and
(re)start the single-shot timer, which cancels any previously armed one. -/
def request_search (st : ThrottleState) (query : String) : ThrottleState :=
  { st with pending_query := query, armed := true }

/-- Expiry of the single-shot timer: while armed, `perform_search` runs and
emits `search_requested(pending_query)` once and the timer disarms; an
unarmed timer cannot expire.  Returns the emitted queries and new state. -/
def timerExpire (st : ThrottleState) : List String × ThrottleState :=
  if st.armed then ([st.pending_query], { st with armed := false }) else ([], st)

/-- A finite sequence of text-change events delivered to the debouncer
strictly within the debounce window (no expiry in between). -/
def runChanges (st : ThrottleState) (qs : List String) : ThrottleState :=
  qs.foldl request_search st

/-- `FlatpakkyMainWindow.search_apps_immediately`: `self.search_timer.stop()`,
then `perform_search(self.search_bar.text().strip())` — one immediate search
with the stripped search-bar text.  Returns the searches issued now and the
timer state left behind. -/
def search_apps_immediately (st : ThrottleState) (barText : String) :
    List String × ThrottleState :=
  ([pyStrip barText], { st with armed := false })

/-- C1: any finite nonempty sequence of text changes delivered within the
debounce window, followed by the timer expiring, emits exactly one search,
whose query is the last delivered text value; earlier pending texts are
overwritten and earlier armed timers canceled.  (Every nonempty sequence is
of the form `qs ++ [q]` with `q` its last element.) -/
theorem C1_debounce_last_write_wins (st : ThrottleState) (qs : List String)
    (q : String) :
    timerExpire (runChanges st (qs ++ [q]))
      = ([q], { st with pending_query := q, armed := false }) := by
  have h : runChanges st (qs ++ [q])
      = { st with pending_query := q, armed := true } := by
    have : ∀ s : ThrottleState, s.delay_ms = st.delay_ms →
        (runChanges s qs).delay_ms = st.delay_ms := by
      intro s hs
      induction qs generalizing s with
      | nil => exact hs
      | cons a as ih => exact ih _ hs
    simp only [runChanges, List.foldl_append, List.foldl_cons, List.foldl_nil]
    simp only [request_search]
    have hd := this st rfl
    simp only [runChanges] at hd
    rw [hd]
  rw [h]
  rfl

/-- C8: while a debounced search is pending, the explicit "search now"
action cancels the pending timer, issues exactly one search immediately
with the current (stripped) text, and the canceled timer can no longer
fire a second search. -/
theorem C8_search_now_cancels_timer (st : ThrottleState) (barText : String)
    (h : st.armed = true) :
    (search_apps_immediately st barText).1 = [pyStrip barText] ∧
      timerExpire (search_apps_immediately st barText).2
        = ([], (search_apps_immediately st barText).2) := by
  exact ⟨rfl, rfl⟩

/-- Witness for C8 at a concrete pending state and search-bar text. -/
theorem C8_witness :
    (ThrottleState.armed ⟨2000, "old", true⟩ = true) ∧
      (search_apps_immediately ⟨2000, "old", true⟩ "  firefox ").1 = ["firefox"] ∧
      timerExpire (search_apps_immediately ⟨2000, "old", true⟩ "  firefox ").2
        = ([], (search_apps_immediately ⟨2000, "old", true⟩ "  firefox ").2) :=
  ⟨rfl, (C8_search_now_cancels_timer ⟨2000, "old", true⟩ "  firefox " rfl).1,
    (C8_search_now_cancels_timer ⟨2000, "old", true⟩ "  firefox " rfl).2⟩

/-- C2 (amended): after stripping leading/trailing whitespace of the whole
output, the parse keeps exactly the rows that are non-blank and have at
least five tab-separated columns, in original relative order, each mapped
to the record of its first five columns; malformed rows are dropped without
aborting.  The second conjunct is the spec's concrete scenario. -/
theorem C2_parse_keeps_valid_rows (stdout : String) :
    get_installed_apps stdout
      = ((splitNL (pyStrip stdout)).filter isValidRow).map recordOfLine ∧
    get_installed_apps "Firefox\torg.mozilla.firefox\t120.0\tstable\tflathub\n"
      = [{ name := "Firefox", flatpakAppId := "org.mozilla.firefox",
           currentReleaseVersion := "120.0", branch := "stable",
           origin := "flathub" }] := by
  exact ⟨filterMap_parseListLine _, rfl⟩

/-! ## FlatpakAPI.search_apps

`search_apps` builds a URL from the query, performs an HTTP GET and JSON
decode, returns `data if isinstance(data, list) else []` with
`last_error = None` on success, and on `URLError`/`HTTPError`/
`JSONDecodeError` sets `last_error = str(e)` and returns `[]`.  The
transport-and-decode step is the oracle argument `response`; the three
caught exception types are embedded with CPython's `str()` renderings.
`search_apps` below covers the outcomes the `except` clause handles;
the guarded block can also raise exceptions outside the caught tuple,
and `search_apps_full` further down extends the embedding with those
propagating paths. -/

/-- The exceptions caught by `search_apps`, with the data their CPython
`__str__` uses: `URLError` renders as `<urlopen error {reason}>`,
`HTTPError` as `HTTP Error {code}: {msg}`, and `json.JSONDecodeError` as
`{msg}: line {line} column {col} (char {pos})`. -/
inductive PyNetErr where
  | urlError (reason : String)
  | httpError (code : Nat) (msg : String)
  | jsonDecodeError (msg : String) (line col pos : Nat)
deriving DecidableEq, Repr

/-- `str(e)` for each caught exception, following the CPython formats. -/
def exStr : PyNetErr → String
  | .urlError reason => "<urlopen error " ++ reason ++ ">"
  | .httpError code msg => "HTTP Error " ++ toString code ++ ": " ++ msg
  | .jsonDecodeError msg line col pos =>
      msg ++ ": line " ++ toString line ++ " column " ++ toString col
        ++ " (char " ++ toString pos ++ ")"

/-- A decoded JSON value as `json.loads` returns it; `search_apps` only
inspects whether it is a Python list. -/
inductive PyValue where
  | pyList (xs : List PyValue)
  | pyDict
  | pyStr (s : String)
  | pyNum (n : Int)
  | pyBool (b : Bool)
  | pyNone

/-- `isinstance(data, list)`. -/
def PyValue.isList : PyValue → Bool
  | .pyList _ => true
  | _ => false

/-- The mutable error side channel of `FlatpakAPI` (`self.last_error`). -/
structure FlatpakAPIState where
  last_error : Option String
deriving Repr

/-- `FlatpakAPI.search_apps` as a function of the prior client state and
the outcome of the HTTP request plus JSON decode (the oracle `response`):
on success set `last_error = None` and return `data` if it is a list else
`[]`; on a caught exception set `last_error = str(e)` and return `[]`.
The URL choice made from `query` does not affect this state/result shape,
so `query` is carried but unused. -/
def search_apps (st : FlatpakAPIState) (query : String)
    (response : Except PyNetErr PyValue) : List PyValue × FlatpakAPIState :=
  match response with
  | .ok data =>
    match data with
    | .pyList xs => (xs, { last_error := none })
    | _ => ([], { last_error := none })
  | .error e => ([], { last_error := some (exStr e) })

theorem string_append_eq_empty {a b : String} (h : a ++ b = "") :
    a = "" ∧ b = "" := by
  have hd : a.data ++ b.data = ([] : List Char) := congrArg String.data h
  rcases List.append_eq_nil.mp hd with ⟨h1, h2⟩
  cases a with
  | mk da =>
    cases b with
    | mk db =>
      simp only [String.data] at h1 h2
      subst h1; subst h2
      exact ⟨rfl, rfl⟩

theorem exStr_ne_empty (e : PyNetErr) : exStr e ≠ "" := by
  cases e with
  | urlError reason =>
    intro h
    have := (string_append_eq_empty ((string_append_eq_empty h).1)).1
    exact absurd this (by decide)
  | httpError code msg =>
    intro h
    have h1 := (string_append_eq_empty h).1
    have := (string_append_eq_empty ((string_append_eq_empty h1).1)).1
    exact absurd this (by decide)
  | jsonDecodeError msg line col pos =>
    intro h
    have h1 := (string_append_eq_empty h).1
    have h2 := (string_append_eq_empty h1).1
    have := (string_append_eq_empty h2).2
    exact absurd this (by decide)

/-- Exceptions the guarded block of `search_apps` can raise that its
`except (URLError, HTTPError, json.JSONDecodeError)` clause does not
catch: `urllib` wraps network errors in `URLError` only while opening the
request, so a timeout or connection reset raised during
`response.read()`, an `http.client.IncompleteRead`, or a
`UnicodeDecodeError` from `response.read().decode()` on non-UTF-8 bytes
all match no handler and propagate to the caller. -/
inductive UncaughtErr where
  | timeoutDuringRead (msg : String)
  | connectionReset (msg : String)
  | incompleteRead (msg : String)
  | unicodeDecodeError (msg : String)
deriving DecidableEq, Repr

/-- Outcome of the whole guarded block of `search_apps`: the body was
read, decoded to text and JSON-parsed (`decoded`); one of the three
caught exception types was raised (`caught`); or an exception outside the
caught tuple was raised (`raised`). -/
inductive TryOutcome where
  | decoded (data : PyValue)
  | caught (e : PyNetErr)
  | raised (e : UncaughtErr)

/-- `FlatpakAPI.search_apps` including the exception paths its handler
does not cover: a handled outcome produces the normal return value of
`search_apps`; an exception outside the caught tuple propagates to the
caller (and `last_error` keeps whatever value it had). -/
def search_apps_full (st : FlatpakAPIState) (query : String)
    (outcome : TryOutcome) :
    Except UncaughtErr (List PyValue × FlatpakAPIState) :=
  match outcome with
  | .decoded data => .ok (search_apps st query (.ok data))
  | .caught e => .ok (search_apps st query (.error e))
  | .raised e => .error e

/-- Whether a call outcome is an exception propagating to the caller. -/
def raisesToCaller :
    Except UncaughtErr (List PyValue × FlatpakAPIState) → Bool
  | .error _ => true
  | .ok _ => false

/-- C3 as stated is false: a response body that is not valid UTF-8 makes
`response.read().decode()` raise `UnicodeDecodeError`, which the `except`
tuple does not catch — this decode-phase failure propagates to the caller
as an exception instead of returning `[]` with a recorded error detail. -/
theorem C3_counterexample :
    raisesToCaller
        (search_apps_full { last_error := none } "firefox"
          (.raised (.unicodeDecodeError
            "utf-8 codec cannot decode byte 0xff in position 0")))
      = true := rfl

/-- C3 (amended): a search call that fails with one of the three caught
exception types (`URLError`, `HTTPError`, `json.JSONDecodeError`) returns
normally with `[]` and records the non-empty `str(e)` in `last_error`; a
successful call returns normally and clears the error state to `None`; a
failure of the guarded block outside the caught tuple propagates to the
caller as an exception. -/
theorem C3_caught_failure_is_state (st : FlatpakAPIState) (query : String) :
    (∀ e : PyNetErr,
      search_apps_full st query (.caught e)
          = .ok ([], { last_error := some (exStr e) }) ∧
        exStr e ≠ "") ∧
    (∀ d : PyValue,
      search_apps_full st query (.decoded d)
          = .ok (search_apps st query (.ok d)) ∧
        (search_apps st query (.ok d)).2.last_error = none) ∧
    ∀ e : UncaughtErr, search_apps_full st query (.raised e) = .error e := by
  refine ⟨fun e => ⟨rfl, exStr_ne_empty e⟩, fun d => ⟨rfl, ?_⟩, fun e => rfl⟩
  cases d <;> rfl

/-- C9: a response that decodes to a JSON value that is not an array makes
the call return `[]` with `last_error` cleared to `None` — exactly the
result of a successful search returning zero results, so the two are
indistinguishable at the public interface. -/
theorem C9_non_array_indistinguishable (st : FlatpakAPIState) (query : String)
    (d : PyValue) (h : d.isList = false) :
    search_apps st query (.ok d) = ([], { last_error := none }) ∧
      search_apps st query (.ok d)
        = search_apps st query (.ok (.pyList [])) := by
  cases d <;> simp_all [search_apps, PyValue.isList]

/-- Witness for C9: a JSON `null` body, with a previous error latched. -/
theorem C9_witness :
    (PyValue.isList .pyNone = false) ∧
      search_apps { last_error := some "earlier failure" } "q" (.ok .pyNone)
        = ([], { last_error := none }) :=
  ⟨rfl, (C9_non_array_indistinguishable
          { last_error := some "earlier failure" } "q" .pyNone rfl).1⟩

/-! ## IconLoader.run -/

/-- A `QPixmap` as far as `IconLoader.run` inspects it: whether
`loadFromData` left it null (decode failed). -/
structure Pixmap where
  isNull : Bool
deriving DecidableEq, Repr

/-- The two signals an `IconLoader` can emit. -/
inductive IconSignal where
  | icon_loaded (app_id : String) (pix : Pixmap)
  | icon_failed (app_id : String)
deriving DecidableEq, Repr

/-- `IconLoader.run`: download the URL (oracle `fetched`: the received
bytes, or the message of a raised exception), `pixmap.loadFromData(data)`
(oracle `loadFromData`), and if the pixmap is not null emit
`icon_loaded(app_id, pixmap.scaled(64, 64, ...))` (oracle `scaled`), else
emit `icon_failed(app_id)`; any exception is caught and emits
`icon_failed(app_id)`.  Returns the list of emitted signals in order. -/
def iconLoader_run (app_id : String) (fetched : Except String (List Nat))
    (loadFromData : List Nat → Pixmap) (scaled : Pixmap → Pixmap) :
    List IconSignal :=
  match fetched with
  | .error _ => [.icon_failed app_id]
  | .ok data =>
    let pixmap := loadFromData data
    if pixmap.isNull = false then
      [.icon_loaded app_id (scaled pixmap)]
    else
      [.icon_failed app_id]

/-- C7: every icon-fetch request emits exactly one signal — never both and
never neither — and an `icon_loaded` signal is emitted only when the
download succeeded and the bytes decoded to a non-null pixmap (and then it
carries the scaled pixmap). -/
theorem C7_exactly_one_icon_signal (app_id : String)
    (fetched : Except String (List Nat)) (loadFromData : List Nat → Pixmap)
    (scaled : Pixmap → Pixmap) :
    (iconLoader_run app_id fetched loadFromData scaled).length = 1 ∧
    ∀ pix, IconSignal.icon_loaded app_id pix
        ∈ iconLoader_run app_id fetched loadFromData scaled →
      ∃ data, fetched = .ok data ∧ (loadFromData data).isNull = false ∧
        pix = scaled (loadFromData data) := by
  constructor
  · cases fetched with
    | error e => rfl
    | ok data =>
      by_cases h : (loadFromData data).isNull = false <;>
        simp [iconLoader_run, h]
  · intro pix hmem
    cases fetched with
    | error e => simp [iconLoader_run] at hmem
    | ok data =>
      by_cases h : (loadFromData data).isNull = false <;>
        simp [iconLoader_run, h] at hmem
      exact ⟨data, rfl, h, hmem⟩

/-- Witness for C7 at a concrete request whose bytes decode successfully:
the `icon_loaded` membership hypothesis holds and the conclusion follows by
the theorem. -/
theorem C7_witness :
    (IconSignal.icon_loaded "org.app" ⟨false⟩
        ∈ iconLoader_run "org.app" (.ok [1, 2]) (fun _ => ⟨false⟩) id) ∧
      ∃ data, (Except.ok [1, 2] : Except String (List Nat)) = .ok data ∧
        ((fun _ => (⟨false⟩ : Pixmap)) data).isNull = false ∧
        (⟨false⟩ : Pixmap) = id ((fun _ => (⟨false⟩ : Pixmap)) data) :=
  ⟨by decide,
    (C7_exactly_one_icon_signal "org.app" (.ok [1, 2]) (fun _ => ⟨false⟩) id).2
      ⟨false⟩ (by decide)⟩

/-! ## Icon-fetch deduplication (Presentation Layer)

The window keeps `self.app_icons` (identifier → pixmap cache, modelled by
its key list), `self.loading_icons` (the in-flight identifier set) and
`self.icon_loaders` (the started loader objects, append-only).  The ghost
field `running` models the set of loader threads started and not yet
finished; it is what "in flight" means physically. -/

structure IconState where
  app_icons : List String
  loading_icons : List String
  icon_loaders : List (String × String)
  running : List String
deriving DecidableEq, Repr

/-- `FlatpakkyMainWindow.load_app_icon`: return immediately when the
identifier is cached or already loading; otherwise add it to
`loading_icons`, create and start a loader (appended to `icon_loaders`,
one more running thread). -/
def load_app_icon (st : IconState) (app_id icon_url : String) : IconState :=
  if app_id ∈ st.app_icons ∨ app_id ∈ st.loading_icons then
    st
  else
    { st with loading_icons := app_id :: st.loading_icons
              icon_loaders := st.icon_loaders ++ [(app_id, icon_url)]
              running := app_id :: st.running }

/-- `FlatpakkyMainWindow.on_icon_loaded`: cache the pixmap under the
identifier and discard it from `loading_icons`; the emitting loader thread
is finished. -/
def on_icon_loaded (st : IconState) (app_id : String) : IconState :=
  { st with app_icons := st.app_icons ++ [app_id]
            loading_icons := st.loading_icons.filter (fun x => x != app_id)
            running := st.running.erase app_id }

/-- `FlatpakkyMainWindow.on_icon_failed`: discard the identifier from
`loading_icons`; the emitting loader thread is finished. -/
def on_icon_failed (st : IconState) (app_id : String) : IconState :=
  { st with loading_icons := st.loading_icons.filter (fun x => x != app_id)
            running := st.running.erase app_id }

/-- The events that touch the icon state. -/
inductive IconEvent where
  | request (app_id icon_url : String)
  | loaded (app_id : String)
  | failed (app_id : String)

def stepIcon (st : IconState) : IconEvent → IconState
  | .request app_id icon_url => load_app_icon st app_id icon_url
  | .loaded app_id => on_icon_loaded st app_id
  | .failed app_id => on_icon_failed st app_id

def initIconState : IconState := ⟨[], [], [], []⟩

def runIcons (evs : List IconEvent) : IconState :=
  evs.foldl stepIcon initIconState

/-- The icon-state invariant: no identifier has two running fetches, and
every running fetch is recorded in `loading_icons`. -/
def IconInv (st : IconState) : Prop :=
  st.running.Nodup ∧ ∀ x ∈ st.running, x ∈ st.loading_icons

theorem stepIcon_preserves_inv (st : IconState) (ev : IconEvent)
    (h : IconInv st) : IconInv (stepIcon st ev) := by
  obtain ⟨hnd, hsub⟩ := h
  cases ev with
  | request app_id icon_url =>
    by_cases hc : app_id ∈ st.app_icons ∨ app_id ∈ st.loading_icons
    · simpa [stepIcon, load_app_icon, hc] using ⟨hnd, hsub⟩
    · push_neg at hc
      have hnotload : app_id ∉ st.loading_icons := hc.2
      have hnotrun : app_id ∉ st.running := fun hr => hnotload (hsub _ hr)
      refine ⟨?_, ?_⟩
      · simpa [stepIcon, load_app_icon, hc, not_or, List.nodup_cons]
          using ⟨hnotrun, hnd⟩
      · intro x hx
        simp only [stepIcon, load_app_icon, if_neg (not_or.mpr hc)] at hx ⊢
        rcases List.mem_cons.mp hx with h | h
        · exact List.mem_cons.mpr (Or.inl h)
        · exact List.mem_cons.mpr (Or.inr (hsub _ h))
  | loaded app_id =>
    refine ⟨hnd.erase app_id, ?_⟩
    intro x hx
    simp only [stepIcon, on_icon_loaded] at hx ⊢
    have hx' := (List.Nodup.mem_erase_iff hnd).mp hx
    exact List.mem_filter.mpr ⟨hsub _ hx'.2, by simpa using hx'.1⟩
  | failed app_id =>
    refine ⟨hnd.erase app_id, ?_⟩
    intro x hx
    simp only [stepIcon, on_icon_failed] at hx ⊢
    have hx' := (List.Nodup.mem_erase_iff hnd).mp hx
    exact List.mem_filter.mpr ⟨hsub _ hx'.2, by simpa using hx'.1⟩

theorem runIcons_inv (evs : List IconEvent) : IconInv (runIcons evs) := by
  suffices h : ∀ st, IconInv st → IconInv (evs.foldl stepIcon st) from
    h initIconState ⟨List.nodup_nil, by simp [initIconState]⟩
  induction evs with
  | nil => exact fun st h => h
  | cons ev evs ih => exact fun st h => ih _ (stepIcon_preserves_inv st ev h)

/-- C6: requesting an icon fetch for an identifier that is already cached
or already in flight leaves the state untouched (in particular, zero new
loaders are started), and consequently along every event history at most
one fetch is running per identifier. -/
theorem C6_icon_fetch_dedup :
    (∀ (st : IconState) (app_id icon_url : String),
      app_id ∈ st.app_icons ∨ app_id ∈ st.loading_icons →
        load_app_icon st app_id icon_url = st) ∧
    ∀ evs : List IconEvent, (runIcons evs).running.Nodup := by
  constructor
  · intro st app_id icon_url h
    simp [load_app_icon, h]
  · exact fun evs => (runIcons_inv evs).1

/-- Witness for C6: a request for an already-cached identifier changes
nothing. -/
theorem C6_witness :
    ("org.app" ∈ (⟨["org.app"], [], [], []⟩ : IconState).app_icons ∨
        "org.app" ∈ (⟨["org.app"], [], [], []⟩ : IconState).loading_icons) ∧
      load_app_icon ⟨["org.app"], [], [], []⟩ "org.app" "http://u"
        = ⟨["org.app"], [], [], []⟩ :=
  ⟨Or.inl (by decide),
    C6_icon_fetch_dedup.1 ⟨["org.app"], [], [], []⟩ "org.app" "http://u"
      (Or.inl (by decide))⟩

/-! ## AppWorker.run -/

/-- The signals an `AppWorker` can emit. -/
inductive WorkerSignal where
  | progress_updated (msg : String)
  | operation_finished (success : Bool) (operation : String)
deriving DecidableEq, Repr

/-- `AppWorker.run`: dispatch on the `operation` string; each recognized
branch emits one progress message, performs the matching `FlatpakAPI` call
(oracle `apiSucc`, keyed by method name, gives its boolean result — those
methods never raise), and emits one terminal signal.  An unrecognized
operation matches no branch and the body does nothing.  Returns the emitted
signals in order, and the list of `FlatpakAPI` methods invoked. -/
def appWorker_run (operation app_id : String) (apiSucc : String → Bool) :
    List WorkerSignal × List String :=
  if operation = "install" then
    ([.progress_updated ("Installing " ++ app_id ++ "..."),
      .operation_finished (apiSucc "install_app") "install"], ["install_app"])
  else if operation = "uninstall" then
    ([.progress_updated ("Uninstalling " ++ app_id ++ "..."),
      .operation_finished (apiSucc "uninstall_app") "uninstall"],
     ["uninstall_app"])
  else if operation = "update" then
    ([.progress_updated ("Updating " ++ app_id ++ "..."),
      .operation_finished (apiSucc "update_app") "update"], ["update_app"])
  else if operation = "update_all" then
    ([.progress_updated "Updating all applications...",
      .operation_finished (apiSucc "update_all_apps") "update_all"],
     ["update_all_apps"])
  else
    ([], [])

/-- C10: for every operation string outside the four recognized kinds, the
worker emits no signal at all — no progress message and no terminal
signal — and invokes no `FlatpakAPI` method. -/
theorem C10_unknown_operation_silent (operation app_id : String)
    (apiSucc : String → Bool)
    (h : operation ∉ (["install", "uninstall", "update", "update_all"] :
        List String)) :
    appWorker_run operation app_id apiSucc = ([], []) := by
  simp only [List.mem_cons, List.mem_singleton, not_or] at h
  obtain ⟨h1, h2, h3, h4⟩ := h
  simp [appWorker_run, h1, h2, h3, h4]

/-- Witness for C10 at the unrecognized operation string `"reinstall"`. -/
theorem C10_witness :
    ("reinstall" ∉ (["install", "uninstall", "update", "update_all"] :
        List String)) ∧
      appWorker_run "reinstall" "org.app" (fun _ => true) = ([], []) :=
  ⟨by decide,
    C10_unknown_operation_silent "reinstall" "org.app" (fun _ => true)
      (by decide)⟩

/-! ## FlatpakkyMainWindow.on_operation_finished

The handler is embedded as the ordered list of UI effects it performs,
with the dialog outcome (`dialogAccepted`), tray visibility
(`trayVisible`) and selection state (`selectedApp`) as oracle inputs.
Re-invoking an operation (`install_app()` / `uninstall_app()` /
`update_all_apps()`) is recorded as an `invokeOp` effect; calling
`load_installed_apps()` — which re-fetches and fully replaces
`self.installed_apps` — as a `loadInstalled` effect. -/

inductive UiEff where
  | hideProgressBar
  | statusMessage (msg : String)
  | loadInstalled
  | updateDetails
  | trayNotify (operation : String)
  | showErrorDialog (operation : String)
  | invokeOp (operation : String)
deriving DecidableEq, Repr

/-- `FlatpakkyMainWindow.on_operation_finished(success, operation)`. -/
def on_operation_finished (success : Bool) (operation : String)
    (dialogAccepted trayVisible selectedApp : Bool) : List UiEff :=
  [UiEff.hideProgressBar]
  ++ (if success then
        [UiEff.statusMessage "Operation completed successfully",
         UiEff.loadInstalled, UiEff.updateDetails]
        ++ (if trayVisible then [UiEff.trayNotify operation] else [])
      else
        [UiEff.statusMessage "Operation failed",
         UiEff.showErrorDialog operation]
        ++ (if dialogAccepted then
              (if operation = "install" then [UiEff.invokeOp "install"]
               else if operation = "uninstall" then
                 [UiEff.invokeOp "uninstall"]
               else if operation = "update_all" then
                 [UiEff.invokeOp "update_all"]
               else [])
            else [])
        ++ (if trayVisible then [UiEff.trayNotify operation] else []))
  ++ (if selectedApp then [UiEff.updateDetails] else [])

/-- Running a UI effect trace over the installed-list snapshot:
`loadInstalled` replaces the whole snapshot with the freshly fetched list
(oracle `fetched`); no other effect touches it. -/
def runInstalled (fetched : List InstalledApp)
    (installed : List InstalledApp) (es : List UiEff) : List InstalledApp :=
  es.foldl
    (fun acc e =>
      match e with
      | UiEff.loadInstalled => fetched
      | _ => acc)
    installed

def isLoadInstalled : UiEff → Bool
  | .loadInstalled => true
  | _ => false

/-- How many times a trace re-fetches the installed list. -/
def loadCount (es : List UiEff) : Nat := (es.filter isLoadInstalled).length

/-- C5: a failed operation's terminal handler performs no re-fetch and
leaves the installed-list snapshot unchanged; a successful one performs
exactly one re-fetch, which fully replaces the snapshot — for every
operation kind, dialog outcome, tray visibility and selection state. -/
theorem C5_snapshot_refetch (success : Bool) (operation : String)
    (dialogAccepted trayVisible selectedApp : Bool)
    (installed fetched : List InstalledApp) :
    runInstalled fetched installed
        (on_operation_finished success operation dialogAccepted trayVisible
          selectedApp)
      = (if success then fetched else installed) ∧
    loadCount
        (on_operation_finished success operation dialogAccepted trayVisible
          selectedApp)
      = (if success then 1 else 0) := by
  cases success <;>
    cases dialogAccepted <;>
      cases trayVisible <;>
        cases selectedApp <;>
          simp [on_operation_finished, runInstalled, loadCount,
                isLoadInstalled, List.filter_append, List.foldl_append] <;>
            split_ifs <;>
              simp [List.filter, List.foldl, isLoadInstalled]

/-- C4 as stated is false: a failed `"update"` operation whose error dialog
is accepted re-invokes nothing — the retry dispatch in
`on_operation_finished` has branches only for `"install"`, `"uninstall"`
and `"update_all"`. -/
theorem C4_counterexample :
    UiEff.invokeOp "update"
      ∉ on_operation_finished false "update" true false false := by
  decide

/-- C4 (amended): when a failed operation's terminal signal is handled and
the user accepts the retry action, the same operation kind is re-invoked
for the kinds `install`, `uninstall` and `update_all`; for the kind
`update` no operation is re-invoked at all. -/
theorem C4_retry_same_operation (operation : String)
    (trayVisible selectedApp : Bool)
    (h : operation = "install" ∨ operation = "uninstall" ∨
      operation = "update_all") :
    UiEff.invokeOp operation
        ∈ on_operation_finished false operation true trayVisible
            selectedApp ∧
    ∀ o : String, UiEff.invokeOp o
        ∉ on_operation_finished false "update" true trayVisible
            selectedApp := by
  constructor
  · rcases h with h | h | h <;> subst h <;>
      cases trayVisible <;> cases selectedApp <;> decide
  · intro o
    cases trayVisible <;> cases selectedApp <;>
      simp [on_operation_finished]

/-- Witness for C4 at the concrete kind `"install"`: the accepted retry of
a failed install re-invokes `install`, and a failed `"update"` re-invokes
nothing. -/
theorem C4_witness :
    ("install" = "install" ∨ "install" = "uninstall" ∨
        "install" = "update_all") ∧
      UiEff.invokeOp "install"
        ∈ on_operation_finished false "install" true false false ∧
      ∀ o : String, UiEff.invokeOp o
        ∉ on_operation_finished false "update" true false false :=
  ⟨Or.inl rfl,
    (C4_retry_same_operation "install" false false (Or.inl rfl)).1,
    (C4_retry_same_operation "install" false false (Or.inl rfl)).2⟩
